import Mathlib

/-!
Shallow embedding of the interaction core of `plot.py` (class `GainPlotApp`):
the per-session cursor/measurement state machine and the channel
visibility/active-channel registry. Chart coordinates are modelled as
rationals; the matplotlib artists (`cursor1`, `cursor2`, `cursor_h1`,
`cursor_h2`, `delta_text`, `delta_y_text`) are modelled by their visibility
flags and stored coordinates/contents, which is all the event handlers read.
Handlers that can raise in Python (the item assignments
`self.cursor_clicks[i] = x` in `on_drag`) return `Option`, with `none`
standing for an uncaught `IndexError`.
-/

set_option autoImplicit false

set_option allowUnsafeReducibility true in
attribute [semireducible] Rat.mul Rat.inv Rat.add Rat.sub

namespace Oscilloscope

/-- The drag-in-progress flag `self.dragging`: `none` or one of the string
tags `'v1'`, `'v2'`, `'h1'`, `'h2'`. -/
inductive Drag where
  | v1 | v2 | h1 | h2
deriving DecidableEq, Repr

/-- The frequency shown by `update_vertical_delta`: the infinite sentinel
`∞` when the delta is zero, otherwise the number `1 / delta`. -/
inductive Freq where
  | infinite
  | finite (q : ℚ)
deriving DecidableEq, Repr

/-- The mutable interaction state of `GainPlotApp`: visibility of the three
channels (`var_visible` of each entry of `self.channels`), the active channel
index, the vertical and horizontal click buffers, the drag flag, and the
visible/stored data of the four cursor lines and the two measurement text
boxes. -/
structure AppState where
  visible0 : Bool
  visible1 : Bool
  visible2 : Bool
  active_channel : Fin 3
  cursor_clicks : List ℚ
  h_cursor_clicks : List ℚ
  dragging : Option Drag
  cursor1_visible : Bool
  cursor2_visible : Bool
  cursor_h1_visible : Bool
  cursor_h2_visible : Bool
  cursor1_x : ℚ
  cursor2_x : ℚ
  cursor_h1_y : ℚ
  cursor_h2_y : ℚ
  delta_text_visible : Bool
  delta_text_value : ℚ
  delta_text_freq : Freq
  delta_y_text_visible : Bool
  delta_y_text_value : ℚ
deriving DecidableEq, Repr

/-- Visibility of channel `i`, i.e. `self.channels[i]["var_visible"].get()`. -/
def visAt (s : AppState) (i : Fin 3) : Bool :=
  if i.val = 0 then s.visible0 else if i.val = 1 then s.visible1 else s.visible2

/-- Writing channel `i`'s visibility variable,
`self.channels[i]["var_visible"].set(b)`. -/
def setVis (s : AppState) (i : Fin 3) (b : Bool) : AppState :=
  if i.val = 0 then { s with visible0 := b }
  else if i.val = 1 then { s with visible1 := b }
  else { s with visible2 := b }

/-- The check `any(channel["var_visible"].get() for channel in self.channels)`. -/
def any_visible (s : AppState) : Bool :=
  s.visible0 || s.visible1 || s.visible2

/-- Method `clear_cursors`: empties both click buffers and hides the four
cursor lines and both measurement texts. (It does not touch `dragging`.) -/
def clear_cursors (s : AppState) : AppState :=
  { s with cursor_clicks := [], h_cursor_clicks := [],
           cursor1_visible := false, cursor2_visible := false,
           cursor_h1_visible := false, cursor_h2_visible := false,
           delta_text_visible := false, delta_y_text_visible := false }

/-- Method `update_vertical_delta`: when `len(self.cursor_clicks) == 2`,
computes `delta_x = abs(clicks[1] - clicks[0])`, sets the frequency to
`1 / delta_x` when `delta_x != 0` and to the `∞` sentinel otherwise, shows
`delta_text` and hides `delta_y_text`. Otherwise does nothing. -/
def update_vertical_delta (s : AppState) : AppState :=
  if s.cursor_clicks.length = 2 then
    let delta_x := |s.cursor_clicks.getD 1 0 - s.cursor_clicks.getD 0 0|
    { s with delta_text_value := delta_x,
             delta_text_freq := if delta_x ≠ 0 then Freq.finite (1 / delta_x)
                                else Freq.infinite,
             delta_text_visible := true,
             delta_y_text_visible := false }
  else s

/-- Method `update_horizontal_delta`: when `len(self.h_cursor_clicks) == 2`,
computes `delta_y = abs(clicks[1] - clicks[0])`, shows `delta_y_text` and
hides `delta_text`. Otherwise does nothing. -/
def update_horizontal_delta (s : AppState) : AppState :=
  if s.h_cursor_clicks.length = 2 then
    { s with delta_y_text_value :=
               |s.h_cursor_clicks.getD 1 0 - s.h_cursor_clicks.getD 0 0|,
             delta_y_text_visible := true,
             delta_text_visible := false }
  else s

/-- The cursor/text re-creation block of `plot`: the four cursor lines and
the two texts are created afresh, invisible, at coordinate 0 (the default of
`axvline`/`axhline`). -/
def reset_artists (s : AppState) : AppState :=
  { s with cursor1_visible := false, cursor2_visible := false,
           cursor_h1_visible := false, cursor_h2_visible := false,
           cursor1_x := 0, cursor2_x := 0,
           cursor_h1_y := 0, cursor_h2_y := 0,
           delta_text_visible := false, delta_y_text_visible := false }

/-- Restore block of `plot`, `if len(self.cursor_clicks) >= 1` part. -/
def restore_v1 (s : AppState) : AppState :=
  if 1 ≤ s.cursor_clicks.length then
    { s with cursor1_x := s.cursor_clicks.getD 0 0, cursor1_visible := true }
  else s

/-- Restore block of `plot`, `if len(self.cursor_clicks) >= 2` part,
including the `update_vertical_delta()` call. -/
def restore_v2 (s : AppState) : AppState :=
  if 2 ≤ s.cursor_clicks.length then
    update_vertical_delta
      { s with cursor2_x := s.cursor_clicks.getD 1 0, cursor2_visible := true }
  else s

/-- Restore block of `plot`, `if len(self.h_cursor_clicks) >= 1` part. -/
def restore_h1 (s : AppState) : AppState :=
  if 1 ≤ s.h_cursor_clicks.length then
    { s with cursor_h1_y := s.h_cursor_clicks.getD 0 0,
             cursor_h1_visible := true }
  else s

/-- Restore block of `plot`, `if len(self.h_cursor_clicks) >= 2` part,
including the `update_horizontal_delta()` call. -/
def restore_h2 (s : AppState) : AppState :=
  if 2 ≤ s.h_cursor_clicks.length then
    update_horizontal_delta
      { s with cursor_h2_y := s.h_cursor_clicks.getD 1 0,
               cursor_h2_visible := true }
  else s

/-- The full cursor-restoration block of `plot` (run when the active channel
is visible): first vertical cursor, second vertical cursor with the vertical
measurement, then the two horizontal cursors with the horizontal
measurement. -/
def restore_cursors (s : AppState) : AppState :=
  restore_h2 (restore_h1 (restore_v2 (restore_v1 s)))

/-- Method `plot`: if no channel is visible, channel 0's visibility variable
is set back to true and that channel is drawn. All four cursor lines and
both texts are then re-created invisible. If the active channel is visible
the cursor lines are restored from the click buffers and the measurements
recomputed; otherwise both click buffers are emptied. -/
def plot (s : AppState) : AppState :=
  let s := if any_visible s then s else setVis s 0 true
  let s := reset_artists s
  if visAt s s.active_channel then restore_cursors s
  else { s with cursor_clicks := [], h_cursor_clicks := [] }

/-- Method `update_plot`: clears the cursor state when the active channel is
not visible, then replots. -/
def update_plot (s : AppState) : AppState :=
  let s := if visAt s s.active_channel then s else clear_cursors s
  plot s

/-- Handler `on_channel_visibility_change(channel_idx)`, together with the
checkbox binding that has just written `newVal` into
`channels[channel_idx]["var_visible"]`: if the active channel was hidden its
cursors are cleared, the plot is refreshed, and if afterwards no channel is
visible the cursors are cleared again. -/
def on_channel_visibility_change (s : AppState) (channel_idx : Fin 3)
    (newVal : Bool) : AppState :=
  let s := setVis s channel_idx newVal
  let s := if channel_idx = s.active_channel ∧ visAt s channel_idx = false
    then clear_cursors s else s
  let s := update_plot s
  if any_visible s then s else clear_cursors s

/-- Handler `set_active_channel(channel_idx)`: installs the new active index;
if the newly active channel is hidden, clears the cursors, forces the channel
visible and replots; otherwise just clears the cursors. -/
def set_active_channel (s : AppState) (channel_idx : Fin 3) : AppState :=
  let s := { s with active_channel := channel_idx }
  if visAt s channel_idx = false then
    let s := clear_cursors s
    let s := setVis s channel_idx true
    update_plot s
  else
    clear_cursors s

/-- The vertical (left button) click-recording block of `on_click`: a full
pair is cleared together with its cursor lines and measurement, then the
click is appended; the cursor line for the new click is shown and, on
completing the pair, the vertical measurement recomputed. -/
def v_click (s : AppState) (x : ℚ) : AppState :=
  let s1 := if s.cursor_clicks.length = 2 then
      { s with cursor_clicks := [], cursor1_visible := false,
               cursor2_visible := false, delta_text_visible := false }
    else s
  let s2 := { s1 with cursor_clicks := s1.cursor_clicks ++ [x] }
  if s2.cursor_clicks.length = 1 then
    { s2 with cursor1_x := x, cursor1_visible := true }
  else if s2.cursor_clicks.length = 2 then
    update_vertical_delta { s2 with cursor2_x := x, cursor2_visible := true }
  else s2

/-- The horizontal (right button) click-recording block of `on_click`. -/
def h_click (s : AppState) (y : ℚ) : AppState :=
  let s1 := if s.h_cursor_clicks.length = 2 then
      { s with h_cursor_clicks := [], cursor_h1_visible := false,
               cursor_h2_visible := false, delta_y_text_visible := false }
    else s
  let s2 := { s1 with h_cursor_clicks := s1.h_cursor_clicks ++ [y] }
  if s2.h_cursor_clicks.length = 1 then
    { s2 with cursor_h1_y := y, cursor_h1_visible := true }
  else if s2.h_cursor_clicks.length = 2 then
    update_horizontal_delta { s2 with cursor_h2_y := y, cursor_h2_visible := true }
  else s2

/-- Handler `on_click(event)`: `button`, chart coordinates `(x, y)`, whether
the event is inside the axes, and the current axis limits. Left button (1):
proximity test against the visible vertical cursors (threshold
`0.02 * (xmax - xmin)`, cursor 1 before cursor 2) begins a drag; otherwise
the vertical click-recording block runs. Right button (3): the same on the
horizontal axis with `y` and the y-limits. -/
def on_click (s : AppState) (button : Nat) (x y : ℚ) (inaxes : Bool)
    (xlim ylim : ℚ × ℚ) : AppState :=
  if ¬ inaxes then s
  else if ¬ visAt s s.active_channel then s
  else if button = 1 then
    if s.cursor1_visible ∧ |x - s.cursor1_x| < (xlim.2 - xlim.1) * (2 / 100)
    then { s with dragging := some Drag.v1 }
    else if s.cursor2_visible ∧ |x - s.cursor2_x| < (xlim.2 - xlim.1) * (2 / 100)
    then { s with dragging := some Drag.v2 }
    else v_click s x
  else if button = 3 then
    if s.cursor_h1_visible ∧ |y - s.cursor_h1_y| < (ylim.2 - ylim.1) * (2 / 100)
    then { s with dragging := some Drag.h1 }
    else if s.cursor_h2_visible ∧ |y - s.cursor_h2_y| < (ylim.2 - ylim.1) * (2 / 100)
    then { s with dragging := some Drag.h2 }
    else h_click s y
  else s

/-- Handler `on_release(event)`: unconditionally sets `dragging` to `None`. -/
def on_release (s : AppState) : AppState :=
  { s with dragging := none }

/-- Clamping `max(min(v, hi), lo)` used by `on_drag` for both axes. -/
def clampTo (v lo hi : ℚ) : ℚ :=
  max (min v hi) lo

/-- Handler `on_drag(event)`: ignored when not dragging, outside the axes, or
when the active channel is hidden. Otherwise the dragged cursor's stored
coordinate and click-buffer entry are set to the event coordinate clamped to
the current axis limits, and the axis's measurement recomputed. The Python
item assignment `self.cursor_clicks[i] = x` raises `IndexError` when the
entry does not exist; this is `none`. -/
def on_drag (s : AppState) (x y : ℚ) (inaxes : Bool) (xlim ylim : ℚ × ℚ) :
    Option AppState :=
  if s.dragging = none ∨ ¬ inaxes then some s
  else if ¬ visAt s s.active_channel then some s
  else
    match s.dragging with
    | none => some s
    | some Drag.v1 =>
        let x := clampTo x xlim.1 xlim.2
        if 1 ≤ s.cursor_clicks.length then
          some (update_vertical_delta
            { s with cursor1_x := x, cursor_clicks := s.cursor_clicks.set 0 x })
        else none
    | some Drag.v2 =>
        let x := clampTo x xlim.1 xlim.2
        if 2 ≤ s.cursor_clicks.length then
          some (update_vertical_delta
            { s with cursor2_x := x, cursor_clicks := s.cursor_clicks.set 1 x })
        else none
    | some Drag.h1 =>
        let y := clampTo y ylim.1 ylim.2
        if 1 ≤ s.h_cursor_clicks.length then
          some (update_horizontal_delta
            { s with cursor_h1_y := y,
                     h_cursor_clicks := s.h_cursor_clicks.set 0 y })
        else none
    | some Drag.h2 =>
        let y := clampTo y ylim.1 ylim.2
        if 2 ≤ s.h_cursor_clicks.length then
          some (update_horizontal_delta
            { s with cursor_h2_y := y,
                     h_cursor_clicks := s.h_cursor_clicks.set 1 y })
        else none

/-- A UI event dispatched to the session: a pointer press (with matplotlib
button number), a pointer move (dispatched to `on_drag`), a pointer release,
a checkbox visibility change (the new value of the toggled variable), an
active-channel radio selection, or a gain combobox selection (which is bound
to `update_plot`). Presses and moves carry the chart position, whether they
are inside the axes, and the current axis limits. -/
inductive Ev where
  | press (button : Nat) (x y : ℚ) (inaxes : Bool) (xlim ylim : ℚ × ℚ)
  | move (x y : ℚ) (inaxes : Bool) (xlim ylim : ℚ × ℚ)
  | release
  | visibilityChange (idx : Fin 3) (newVal : Bool)
  | activeChange (idx : Fin 3)
  | gainSelected
deriving DecidableEq, Repr

/-- One dispatch step: runs the event's handler. `none` is an uncaught
Python exception. -/
def step (s : AppState) : Ev → Option AppState
  | Ev.press button x y inaxes xlim ylim =>
      some (on_click s button x y inaxes xlim ylim)
  | Ev.move x y inaxes xlim ylim => on_drag s x y inaxes xlim ylim
  | Ev.release => some (on_release s)
  | Ev.visibilityChange idx newVal =>
      some (on_channel_visibility_change s idx newVal)
  | Ev.activeChange idx => some (set_active_channel s idx)
  | Ev.gainSelected => some (update_plot s)

/-- Running a sequence of events from a state, stopping at an exception. -/
def run : AppState → List Ev → Option AppState
  | s, [] => some s
  | s, e :: es =>
      match step s e with
      | some s' => run s' es
      | none => none

/-- The state after `GainPlotApp.__init__`: all three channels visible,
channel 0 active, empty click buffers, no drag, all cursor lines and texts
invisible (the closing `self.plot()` call leaves this state unchanged). -/
def init : AppState :=
  { visible0 := true, visible1 := true, visible2 := true,
    active_channel := 0,
    cursor_clicks := [], h_cursor_clicks := [],
    dragging := none,
    cursor1_visible := false, cursor2_visible := false,
    cursor_h1_visible := false, cursor_h2_visible := false,
    cursor1_x := 0, cursor2_x := 0, cursor_h1_y := 0, cursor_h2_y := 0,
    delta_text_visible := false, delta_text_value := 0,
    delta_text_freq := Freq.finite 0,
    delta_y_text_visible := false, delta_y_text_value := 0 }

/-- Length part of the spec invariant: each click buffer holds at most two
entries. -/
def lenInv (s : AppState) : Prop :=
  s.cursor_clicks.length ≤ 2 ∧ s.h_cursor_clicks.length ≤ 2

/-- Coupling between cursor-line visibility and the click buffers: a visible
first cursor has a first click recorded, a visible second cursor a complete
pair (this is what `on_click`'s proximity test relies on when it starts a
drag). -/
def glyphInv (s : AppState) : Prop :=
  (s.cursor1_visible = true → 1 ≤ s.cursor_clicks.length) ∧
  (s.cursor2_visible = true → s.cursor_clicks.length = 2) ∧
  (s.cursor_h1_visible = true → 1 ≤ s.h_cursor_clicks.length) ∧
  (s.cursor_h2_visible = true → s.h_cursor_clicks.length = 2)

/-- Drag-target soundness: `dragging` only ever references a click-buffer
entry that exists, so the item assignments in `on_drag` cannot raise. -/
def dragInv (s : AppState) : Prop :=
  (s.dragging = some Drag.v1 → 1 ≤ s.cursor_clicks.length) ∧
  (s.dragging = some Drag.v2 → s.cursor_clicks.length = 2) ∧
  (s.dragging = some Drag.h1 → 1 ≤ s.h_cursor_clicks.length) ∧
  (s.dragging = some Drag.h2 → s.h_cursor_clicks.length = 2)

/-- At most one of the two measurement annotations is visible. -/
def exclInv (s : AppState) : Prop :=
  ¬ (s.delta_text_visible = true ∧ s.delta_y_text_visible = true)

/-- The invariants that hold in every state reachable by arbitrary event
sequences. -/
def baseInv (s : AppState) : Prop :=
  lenInv s ∧ glyphInv s ∧ exclInv s

/-- Single-pointing-device admissibility of an event in a state: a new press
or a control-widget interaction can only happen when no drag is in progress
(the pointer button is not currently held on the chart). Moves and releases
are always admissible. -/
def evAllowed (s : AppState) : Ev → Bool
  | Ev.press _ _ _ _ _ _ => s.dragging.isNone
  | Ev.visibilityChange _ _ => s.dragging.isNone
  | Ev.activeChange _ => s.dragging.isNone
  | Ev.gainSelected => s.dragging.isNone
  | _ => true

/-- Admissibility of a whole event sequence from a state, checked along the
run (events after an exception are not constrained). -/
def okSeq : AppState → List Ev → Bool
  | _, [] => true
  | s, e :: es =>
      evAllowed s e &&
      (match step s e with
       | some s' => okSeq s' es
       | none => true)

/-- Event sequence refuting the unrestricted drag-target invariant: place the
vertical pair `[1, 5]`, press on the second cursor to begin dragging it, then
hide the active channel with its checkbox — `clear_cursors` empties the click
buffers but leaves `dragging` set. -/
def evsC3 : List Ev :=
  [ Ev.press 1 1 0 true (0, 10) (0, 10),
    Ev.release,
    Ev.press 1 5 0 true (0, 10) (0, 10),
    Ev.release,
    Ev.press 1 5 0 true (0, 10) (0, 10),
    Ev.visibilityChange 0 false ]

/-- Continuation of `evsC3` that re-shows channel 0 and moves the pointer:
`on_drag` then executes `self.cursor_clicks[1] = x` on an empty list. -/
def evsC3crash : List Ev :=
  evsC3 ++ [Ev.visibilityChange 0 true, Ev.move 3 0 true (0, 10) (0, 10)]

/-- The drag flag and vertical click-buffer length of a state, the data the
drag-target invariant talks about. -/
def dragObs (s : AppState) : Option Drag × Nat :=
  (s.dragging, s.cursor_clicks.length)

/-- The drag-capturing prefix of `evsC3`: an admissible sequence (each press
happens with no drag in progress) that ends with the second vertical cursor
being dragged. -/
def evsOk : List Ev :=
  [ Ev.press 1 1 0 true (0, 10) (0, 10),
    Ev.release,
    Ev.press 1 5 0 true (0, 10) (0, 10),
    Ev.release,
    Ev.press 1 5 0 true (0, 10) (0, 10) ]

/-- Event sequence where hiding channel 1 would leave zero visible channels:
channels 0 and 2 are hidden first. -/
def evsC4 : List Ev :=
  [ Ev.visibilityChange 0 false,
    Ev.visibilityChange 2 false,
    Ev.visibilityChange 1 false ]

/-- The visibility flags of the three channels. -/
def visObs (s : AppState) : Bool × Bool × Bool :=
  (s.visible0, s.visible1, s.visible2)

/-- Concrete state for checks: vertical clicks at `1.0` and `1.25`. -/
def vclickState : AppState :=
  { init with cursor_clicks := [1, 5/4] }

/-- Concrete state for checks: the vertical pair `[1, 5]` placed with both
cursor lines shown and the vertical measurement visible. -/
def pairState : AppState :=
  { init with cursor_clicks := [1, 5], cursor1_visible := true, cursor1_x := 1,
              cursor2_visible := true, cursor2_x := 5, delta_text_visible := true }

/-- Concrete state for checks: dragging the first vertical cursor of the pair
`[1, 5]`. -/
def dragState : AppState :=
  { init with dragging := some Drag.v1, cursor_clicks := [1, 5] }

/-- Concrete state for checks: the active channel 0 hidden. -/
def hiddenState : AppState :=
  { init with visible0 := false }

/-- Concrete state for checks: channel 1 hidden and a vertical pair placed. -/
def hidden1State : AppState :=
  { init with visible1 := false, cursor_clicks := [1, 2] }

/-- Concrete state for checks: only channel 1 visible. -/
def only1State : AppState :=
  { init with visible0 := false, visible2 := false }

/-! Projection lemmas: which fields each handler leaves untouched. -/

@[simp] theorem update_vertical_delta_cursor_clicks (s : AppState) :
    (update_vertical_delta s).cursor_clicks = s.cursor_clicks := by
  unfold update_vertical_delta; split <;> rfl

@[simp] theorem update_vertical_delta_h_cursor_clicks (s : AppState) :
    (update_vertical_delta s).h_cursor_clicks = s.h_cursor_clicks := by
  unfold update_vertical_delta; split <;> rfl

@[simp] theorem update_vertical_delta_dragging (s : AppState) :
    (update_vertical_delta s).dragging = s.dragging := by
  unfold update_vertical_delta; split <;> rfl

@[simp] theorem update_vertical_delta_cursor1_visible (s : AppState) :
    (update_vertical_delta s).cursor1_visible = s.cursor1_visible := by
  unfold update_vertical_delta; split <;> rfl

@[simp] theorem update_vertical_delta_cursor2_visible (s : AppState) :
    (update_vertical_delta s).cursor2_visible = s.cursor2_visible := by
  unfold update_vertical_delta; split <;> rfl

@[simp] theorem update_vertical_delta_cursor_h1_visible (s : AppState) :
    (update_vertical_delta s).cursor_h1_visible = s.cursor_h1_visible := by
  unfold update_vertical_delta; split <;> rfl

@[simp] theorem update_vertical_delta_cursor_h2_visible (s : AppState) :
    (update_vertical_delta s).cursor_h2_visible = s.cursor_h2_visible := by
  unfold update_vertical_delta; split <;> rfl

@[simp] theorem update_vertical_delta_active_channel (s : AppState) :
    (update_vertical_delta s).active_channel = s.active_channel := by
  unfold update_vertical_delta; split <;> rfl

@[simp] theorem update_vertical_delta_visible0 (s : AppState) :
    (update_vertical_delta s).visible0 = s.visible0 := by
  unfold update_vertical_delta; split <;> rfl

@[simp] theorem update_vertical_delta_visible1 (s : AppState) :
    (update_vertical_delta s).visible1 = s.visible1 := by
  unfold update_vertical_delta; split <;> rfl

@[simp] theorem update_vertical_delta_visible2 (s : AppState) :
    (update_vertical_delta s).visible2 = s.visible2 := by
  unfold update_vertical_delta; split <;> rfl

@[simp] theorem visAt_update_vertical_delta (s : AppState) (i : Fin 3) :
    visAt (update_vertical_delta s) i = visAt s i := by
  unfold update_vertical_delta; split <;> rfl

@[simp] theorem any_visible_update_vertical_delta (s : AppState) :
    any_visible (update_vertical_delta s) = any_visible s := by
  unfold update_vertical_delta; split <;> rfl

@[simp] theorem update_horizontal_delta_cursor_clicks (s : AppState) :
    (update_horizontal_delta s).cursor_clicks = s.cursor_clicks := by
  unfold update_horizontal_delta; split <;> rfl

@[simp] theorem update_horizontal_delta_h_cursor_clicks (s : AppState) :
    (update_horizontal_delta s).h_cursor_clicks = s.h_cursor_clicks := by
  unfold update_horizontal_delta; split <;> rfl

@[simp] theorem update_horizontal_delta_dragging (s : AppState) :
    (update_horizontal_delta s).dragging = s.dragging := by
  unfold update_horizontal_delta; split <;> rfl

@[simp] theorem update_horizontal_delta_cursor1_visible (s : AppState) :
    (update_horizontal_delta s).cursor1_visible = s.cursor1_visible := by
  unfold update_horizontal_delta; split <;> rfl

@[simp] theorem update_horizontal_delta_cursor2_visible (s : AppState) :
    (update_horizontal_delta s).cursor2_visible = s.cursor2_visible := by
  unfold update_horizontal_delta; split <;> rfl

@[simp] theorem update_horizontal_delta_cursor_h1_visible (s : AppState) :
    (update_horizontal_delta s).cursor_h1_visible = s.cursor_h1_visible := by
  unfold update_horizontal_delta; split <;> rfl

@[simp] theorem update_horizontal_delta_cursor_h2_visible (s : AppState) :
    (update_horizontal_delta s).cursor_h2_visible = s.cursor_h2_visible := by
  unfold update_horizontal_delta; split <;> rfl

@[simp] theorem update_horizontal_delta_active_channel (s : AppState) :
    (update_horizontal_delta s).active_channel = s.active_channel := by
  unfold update_horizontal_delta; split <;> rfl

@[simp] theorem update_horizontal_delta_visible0 (s : AppState) :
    (update_horizontal_delta s).visible0 = s.visible0 := by
  unfold update_horizontal_delta; split <;> rfl

@[simp] theorem update_horizontal_delta_visible1 (s : AppState) :
    (update_horizontal_delta s).visible1 = s.visible1 := by
  unfold update_horizontal_delta; split <;> rfl

@[simp] theorem update_horizontal_delta_visible2 (s : AppState) :
    (update_horizontal_delta s).visible2 = s.visible2 := by
  unfold update_horizontal_delta; split <;> rfl

@[simp] theorem visAt_update_horizontal_delta (s : AppState) (i : Fin 3) :
    visAt (update_horizontal_delta s) i = visAt s i := by
  unfold update_horizontal_delta; split <;> rfl

@[simp] theorem any_visible_update_horizontal_delta (s : AppState) :
    any_visible (update_horizontal_delta s) = any_visible s := by
  unfold update_horizontal_delta; split <;> rfl

@[simp] theorem visAt_clear_cursors (s : AppState) (i : Fin 3) :
    visAt (clear_cursors s) i = visAt s i := rfl

@[simp] theorem clear_cursors_visible0 (s : AppState) :
    (clear_cursors s).visible0 = s.visible0 := rfl

@[simp] theorem clear_cursors_visible1 (s : AppState) :
    (clear_cursors s).visible1 = s.visible1 := rfl

@[simp] theorem clear_cursors_visible2 (s : AppState) :
    (clear_cursors s).visible2 = s.visible2 := rfl

@[simp] theorem clear_cursors_dragging (s : AppState) :
    (clear_cursors s).dragging = s.dragging := rfl

@[simp] theorem clear_cursors_active_channel (s : AppState) :
    (clear_cursors s).active_channel = s.active_channel := rfl

@[simp] theorem any_visible_clear_cursors (s : AppState) :
    any_visible (clear_cursors s) = any_visible s := rfl

@[simp] theorem setVis_cursor_clicks (s : AppState) (i : Fin 3) (b : Bool) :
    (setVis s i b).cursor_clicks = s.cursor_clicks := by
  unfold setVis; split_ifs <;> rfl

@[simp] theorem setVis_h_cursor_clicks (s : AppState) (i : Fin 3) (b : Bool) :
    (setVis s i b).h_cursor_clicks = s.h_cursor_clicks := by
  unfold setVis; split_ifs <;> rfl

@[simp] theorem setVis_dragging (s : AppState) (i : Fin 3) (b : Bool) :
    (setVis s i b).dragging = s.dragging := by
  unfold setVis; split_ifs <;> rfl

@[simp] theorem setVis_active_channel (s : AppState) (i : Fin 3) (b : Bool) :
    (setVis s i b).active_channel = s.active_channel := by
  unfold setVis; split_ifs <;> rfl

@[simp] theorem setVis_cursor1_visible (s : AppState) (i : Fin 3) (b : Bool) :
    (setVis s i b).cursor1_visible = s.cursor1_visible := by
  unfold setVis; split_ifs <;> rfl

@[simp] theorem setVis_cursor2_visible (s : AppState) (i : Fin 3) (b : Bool) :
    (setVis s i b).cursor2_visible = s.cursor2_visible := by
  unfold setVis; split_ifs <;> rfl

@[simp] theorem setVis_cursor_h1_visible (s : AppState) (i : Fin 3) (b : Bool) :
    (setVis s i b).cursor_h1_visible = s.cursor_h1_visible := by
  unfold setVis; split_ifs <;> rfl

@[simp] theorem setVis_cursor_h2_visible (s : AppState) (i : Fin 3) (b : Bool) :
    (setVis s i b).cursor_h2_visible = s.cursor_h2_visible := by
  unfold setVis; split_ifs <;> rfl

@[simp] theorem setVis_delta_text_visible (s : AppState) (i : Fin 3) (b : Bool) :
    (setVis s i b).delta_text_visible = s.delta_text_visible := by
  unfold setVis; split_ifs <;> rfl

@[simp] theorem setVis_delta_y_text_visible (s : AppState) (i : Fin 3) (b : Bool) :
    (setVis s i b).delta_y_text_visible = s.delta_y_text_visible := by
  unfold setVis; split_ifs <;> rfl

theorem visAt_setVis (s : AppState) (j i : Fin 3) (b : Bool) :
    visAt (setVis s j b) i = if i = j then b else visAt s i := by
  fin_cases i <;> fin_cases j <;> simp [visAt, setVis]

@[simp] theorem setVis_zero (s : AppState) (b : Bool) :
    setVis s 0 b = { s with visible0 := b } := rfl

@[simp] theorem reset_artists_cursor_clicks (s : AppState) :
    (reset_artists s).cursor_clicks = s.cursor_clicks := rfl

@[simp] theorem reset_artists_h_cursor_clicks (s : AppState) :
    (reset_artists s).h_cursor_clicks = s.h_cursor_clicks := rfl

@[simp] theorem reset_artists_dragging (s : AppState) :
    (reset_artists s).dragging = s.dragging := rfl

@[simp] theorem reset_artists_active_channel (s : AppState) :
    (reset_artists s).active_channel = s.active_channel := rfl

@[simp] theorem reset_artists_cursor1_visible (s : AppState) :
    (reset_artists s).cursor1_visible = false := rfl

@[simp] theorem reset_artists_cursor2_visible (s : AppState) :
    (reset_artists s).cursor2_visible = false := rfl

@[simp] theorem reset_artists_cursor_h1_visible (s : AppState) :
    (reset_artists s).cursor_h1_visible = false := rfl

@[simp] theorem reset_artists_cursor_h2_visible (s : AppState) :
    (reset_artists s).cursor_h2_visible = false := rfl

@[simp] theorem reset_artists_delta_text_visible (s : AppState) :
    (reset_artists s).delta_text_visible = false := rfl

@[simp] theorem reset_artists_delta_y_text_visible (s : AppState) :
    (reset_artists s).delta_y_text_visible = false := rfl

@[simp] theorem reset_artists_visible0 (s : AppState) :
    (reset_artists s).visible0 = s.visible0 := rfl

@[simp] theorem reset_artists_visible1 (s : AppState) :
    (reset_artists s).visible1 = s.visible1 := rfl

@[simp] theorem reset_artists_visible2 (s : AppState) :
    (reset_artists s).visible2 = s.visible2 := rfl

@[simp] theorem visAt_reset_artists (s : AppState) (i : Fin 3) :
    visAt (reset_artists s) i = visAt s i := rfl

@[simp] theorem any_visible_reset_artists (s : AppState) :
    any_visible (reset_artists s) = any_visible s := rfl

@[simp] theorem restore_v1_cursor_clicks (s : AppState) :
    (restore_v1 s).cursor_clicks = s.cursor_clicks := by
  unfold restore_v1; split_ifs <;> rfl

@[simp] theorem restore_v1_h_cursor_clicks (s : AppState) :
    (restore_v1 s).h_cursor_clicks = s.h_cursor_clicks := by
  unfold restore_v1; split_ifs <;> rfl

@[simp] theorem restore_v1_dragging (s : AppState) :
    (restore_v1 s).dragging = s.dragging := by
  unfold restore_v1; split_ifs <;> rfl

@[simp] theorem restore_v1_active_channel (s : AppState) :
    (restore_v1 s).active_channel = s.active_channel := by
  unfold restore_v1; split_ifs <;> rfl

@[simp] theorem restore_v1_visible0 (s : AppState) :
    (restore_v1 s).visible0 = s.visible0 := by
  unfold restore_v1; split_ifs <;> rfl

@[simp] theorem restore_v1_visible1 (s : AppState) :
    (restore_v1 s).visible1 = s.visible1 := by
  unfold restore_v1; split_ifs <;> rfl

@[simp] theorem restore_v1_visible2 (s : AppState) :
    (restore_v1 s).visible2 = s.visible2 := by
  unfold restore_v1; split_ifs <;> rfl

@[simp] theorem visAt_restore_v1 (s : AppState) (i : Fin 3) :
    visAt (restore_v1 s) i = visAt s i := by
  unfold restore_v1; split_ifs <;> simp [visAt]

@[simp] theorem any_visible_restore_v1 (s : AppState) :
    any_visible (restore_v1 s) = any_visible s := by
  unfold restore_v1; split_ifs <;> rfl

@[simp] theorem restore_v2_cursor_clicks (s : AppState) :
    (restore_v2 s).cursor_clicks = s.cursor_clicks := by
  unfold restore_v2; split_ifs <;> simp

@[simp] theorem restore_v2_h_cursor_clicks (s : AppState) :
    (restore_v2 s).h_cursor_clicks = s.h_cursor_clicks := by
  unfold restore_v2; split_ifs <;> simp

@[simp] theorem restore_v2_dragging (s : AppState) :
    (restore_v2 s).dragging = s.dragging := by
  unfold restore_v2; split_ifs <;> simp

@[simp] theorem restore_v2_active_channel (s : AppState) :
    (restore_v2 s).active_channel = s.active_channel := by
  unfold restore_v2; split_ifs <;> simp

@[simp] theorem restore_v2_visible0 (s : AppState) :
    (restore_v2 s).visible0 = s.visible0 := by
  unfold restore_v2; split_ifs <;> simp

@[simp] theorem restore_v2_visible1 (s : AppState) :
    (restore_v2 s).visible1 = s.visible1 := by
  unfold restore_v2; split_ifs <;> simp

@[simp] theorem restore_v2_visible2 (s : AppState) :
    (restore_v2 s).visible2 = s.visible2 := by
  unfold restore_v2; split_ifs <;> simp

@[simp] theorem visAt_restore_v2 (s : AppState) (i : Fin 3) :
    visAt (restore_v2 s) i = visAt s i := by
  unfold restore_v2; split_ifs <;> simp [visAt]

@[simp] theorem any_visible_restore_v2 (s : AppState) :
    any_visible (restore_v2 s) = any_visible s := by
  unfold restore_v2; split_ifs <;> simp [any_visible]

@[simp] theorem restore_h1_cursor_clicks (s : AppState) :
    (restore_h1 s).cursor_clicks = s.cursor_clicks := by
  unfold restore_h1; split_ifs <;> rfl

@[simp] theorem restore_h1_h_cursor_clicks (s : AppState) :
    (restore_h1 s).h_cursor_clicks = s.h_cursor_clicks := by
  unfold restore_h1; split_ifs <;> rfl

@[simp] theorem restore_h1_dragging (s : AppState) :
    (restore_h1 s).dragging = s.dragging := by
  unfold restore_h1; split_ifs <;> rfl

@[simp] theorem restore_h1_active_channel (s : AppState) :
    (restore_h1 s).active_channel = s.active_channel := by
  unfold restore_h1; split_ifs <;> rfl

@[simp] theorem restore_h1_visible0 (s : AppState) :
    (restore_h1 s).visible0 = s.visible0 := by
  unfold restore_h1; split_ifs <;> rfl

@[simp] theorem restore_h1_visible1 (s : AppState) :
    (restore_h1 s).visible1 = s.visible1 := by
  unfold restore_h1; split_ifs <;> rfl

@[simp] theorem restore_h1_visible2 (s : AppState) :
    (restore_h1 s).visible2 = s.visible2 := by
  unfold restore_h1; split_ifs <;> rfl

@[simp] theorem visAt_restore_h1 (s : AppState) (i : Fin 3) :
    visAt (restore_h1 s) i = visAt s i := by
  unfold restore_h1; split_ifs <;> simp [visAt]

@[simp] theorem any_visible_restore_h1 (s : AppState) :
    any_visible (restore_h1 s) = any_visible s := by
  unfold restore_h1; split_ifs <;> rfl

@[simp] theorem restore_h2_cursor_clicks (s : AppState) :
    (restore_h2 s).cursor_clicks = s.cursor_clicks := by
  unfold restore_h2; split_ifs <;> simp

@[simp] theorem restore_h2_h_cursor_clicks (s : AppState) :
    (restore_h2 s).h_cursor_clicks = s.h_cursor_clicks := by
  unfold restore_h2; split_ifs <;> simp

@[simp] theorem restore_h2_dragging (s : AppState) :
    (restore_h2 s).dragging = s.dragging := by
  unfold restore_h2; split_ifs <;> simp

@[simp] theorem restore_h2_active_channel (s : AppState) :
    (restore_h2 s).active_channel = s.active_channel := by
  unfold restore_h2; split_ifs <;> simp

@[simp] theorem restore_h2_visible0 (s : AppState) :
    (restore_h2 s).visible0 = s.visible0 := by
  unfold restore_h2; split_ifs <;> simp

@[simp] theorem restore_h2_visible1 (s : AppState) :
    (restore_h2 s).visible1 = s.visible1 := by
  unfold restore_h2; split_ifs <;> simp

@[simp] theorem restore_h2_visible2 (s : AppState) :
    (restore_h2 s).visible2 = s.visible2 := by
  unfold restore_h2; split_ifs <;> simp

@[simp] theorem visAt_restore_h2 (s : AppState) (i : Fin 3) :
    visAt (restore_h2 s) i = visAt s i := by
  unfold restore_h2; split_ifs <;> simp [visAt]

@[simp] theorem any_visible_restore_h2 (s : AppState) :
    any_visible (restore_h2 s) = any_visible s := by
  unfold restore_h2; split_ifs <;> simp [any_visible]

@[simp] theorem restore_cursors_cursor_clicks (s : AppState) :
    (restore_cursors s).cursor_clicks = s.cursor_clicks := by
  simp [restore_cursors]

@[simp] theorem restore_cursors_h_cursor_clicks (s : AppState) :
    (restore_cursors s).h_cursor_clicks = s.h_cursor_clicks := by
  simp [restore_cursors]

@[simp] theorem restore_cursors_dragging (s : AppState) :
    (restore_cursors s).dragging = s.dragging := by
  simp [restore_cursors]

@[simp] theorem restore_cursors_active_channel (s : AppState) :
    (restore_cursors s).active_channel = s.active_channel := by
  simp [restore_cursors]

@[simp] theorem restore_cursors_visible0 (s : AppState) :
    (restore_cursors s).visible0 = s.visible0 := by
  simp [restore_cursors]

@[simp] theorem restore_cursors_visible1 (s : AppState) :
    (restore_cursors s).visible1 = s.visible1 := by
  simp [restore_cursors]

@[simp] theorem restore_cursors_visible2 (s : AppState) :
    (restore_cursors s).visible2 = s.visible2 := by
  simp [restore_cursors]

@[simp] theorem visAt_restore_cursors (s : AppState) (i : Fin 3) :
    visAt (restore_cursors s) i = visAt s i := by
  simp [restore_cursors]

@[simp] theorem any_visible_restore_cursors (s : AppState) :
    any_visible (restore_cursors s) = any_visible s := by
  simp [restore_cursors]

theorem restore_v1_of_empty (s : AppState) (h : s.cursor_clicks = []) :
    restore_v1 s = s := by
  unfold restore_v1; rw [if_neg]; simp [h]

theorem restore_v2_of_empty (s : AppState) (h : s.cursor_clicks = []) :
    restore_v2 s = s := by
  unfold restore_v2; rw [if_neg]; simp [h]

theorem restore_h1_of_empty (s : AppState) (h : s.h_cursor_clicks = []) :
    restore_h1 s = s := by
  unfold restore_h1; rw [if_neg]; simp [h]

theorem restore_h2_of_empty (s : AppState) (h : s.h_cursor_clicks = []) :
    restore_h2 s = s := by
  unfold restore_h2; rw [if_neg]; simp [h]

theorem restore_cursors_of_empty (s : AppState) (hv : s.cursor_clicks = [])
    (hh : s.h_cursor_clicks = []) : restore_cursors s = s := by
  unfold restore_cursors
  rw [restore_v1_of_empty s hv, restore_v2_of_empty s hv,
    restore_h1_of_empty s hh, restore_h2_of_empty s hh]

@[simp] theorem plot_dragging (s : AppState) : (plot s).dragging = s.dragging := by
  simp only [plot]
  split_ifs <;> simp

@[simp] theorem plot_active_channel (s : AppState) :
    (plot s).active_channel = s.active_channel := by
  simp only [plot]
  split_ifs <;> simp

/-- After `plot`, at least one channel is visible: the plotting loop re-shows
channel 0 when none was. -/
@[simp] theorem any_visible_plot (s : AppState) : any_visible (plot s) = true := by
  simp only [plot]
  split_ifs <;> simp_all [any_visible]

/-- The channel `plot` re-shows when no channel is visible is channel 0. -/
theorem plot_visible0_of_none (s : AppState) (h : any_visible s = false) :
    (plot s).visible0 = true := by
  simp only [plot]
  split_ifs <;> simp_all [any_visible]

theorem plot_visible0_mono (s : AppState) (h : s.visible0 = true) :
    (plot s).visible0 = true := by
  simp only [plot]
  split_ifs <;> simp_all

@[simp] theorem plot_visible1 (s : AppState) : (plot s).visible1 = s.visible1 := by
  simp only [plot]
  split_ifs <;> simp_all

@[simp] theorem plot_visible2 (s : AppState) : (plot s).visible2 = s.visible2 := by
  simp only [plot]
  split_ifs <;> simp_all

/-- `plot` never hides a channel. -/
theorem visAt_plot_mono (s : AppState) (i : Fin 3) (h : visAt s i = true) :
    visAt (plot s) i = true := by
  fin_cases i <;> simp_all [visAt, plot_visible0_mono]

/-- `plot` from empty click buffers: the buffers stay empty and both
measurement annotations end hidden. -/
theorem plot_clicks_empty (s : AppState) (hv : s.cursor_clicks = [])
    (hh : s.h_cursor_clicks = []) :
    (plot s).cursor_clicks = [] ∧ (plot s).h_cursor_clicks = [] ∧
    (plot s).delta_text_visible = false ∧
    (plot s).delta_y_text_visible = false := by
  simp only [plot]
  split_ifs <;>
    first
      | (rw [restore_cursors_of_empty _ (by simp [hv]) (by simp [hh])]
         simp [hv, hh])
      | simp [hv, hh]

@[simp] theorem update_plot_dragging (s : AppState) :
    (update_plot s).dragging = s.dragging := by
  simp only [update_plot]
  split_ifs <;> simp

@[simp] theorem update_plot_active_channel (s : AppState) :
    (update_plot s).active_channel = s.active_channel := by
  simp only [update_plot]
  split_ifs <;> simp

@[simp] theorem any_visible_update_plot (s : AppState) :
    any_visible (update_plot s) = true := by
  simp only [update_plot]
  split_ifs <;> simp

/-- C6: `set_active_channel` always empties both click buffers and hides both
measurements, installs the new active index, and forces the target channel
visible when it was hidden. -/
theorem claim_set_active_clears (s : AppState) (idx : Fin 3) :
    (set_active_channel s idx).cursor_clicks = [] ∧
    (set_active_channel s idx).h_cursor_clicks = [] ∧
    (set_active_channel s idx).delta_text_visible = false ∧
    (set_active_channel s idx).delta_y_text_visible = false ∧
    (set_active_channel s idx).active_channel = idx ∧
    (visAt s idx = false → visAt (set_active_channel s idx) idx = true) := by
  simp only [set_active_channel]
  split_ifs with hv
  · have hact : (setVis (clear_cursors { s with active_channel := idx }) idx
        true).active_channel = idx := by simp
    have hvis : visAt (setVis (clear_cursors { s with active_channel := idx })
        idx true) idx = true := by simp [visAt_setVis]
    unfold update_plot
    rw [hact, if_pos hvis]
    obtain ⟨h1, h2, h3, h4⟩ := plot_clicks_empty
      (setVis (clear_cursors { s with active_channel := idx }) idx true)
      (by simp [clear_cursors]) (by simp [clear_cursors])
    refine ⟨h1, h2, h3, h4, by simp [hact], fun _ => ?_⟩
    have := visAt_plot_mono
      (setVis (clear_cursors { s with active_channel := idx }) idx true) idx hvis
    simpa using this
  · refine ⟨rfl, rfl, rfl, rfl, rfl, fun hfalse => ?_⟩
    exact absurd hfalse (by simpa using hv)

/-- Witness: activating hidden channel 1 from a state with clicks recorded
clears everything and re-shows channel 1. -/
theorem claim_set_active_clears_witness :
    (set_active_channel hidden1State 1).cursor_clicks = [] ∧
    (set_active_channel hidden1State 1).h_cursor_clicks = [] ∧
    (set_active_channel hidden1State 1).delta_text_visible = false ∧
    (set_active_channel hidden1State 1).delta_y_text_visible = false ∧
    (set_active_channel hidden1State 1).active_channel = 1 ∧
    (visAt hidden1State 1 = false →
      visAt (set_active_channel hidden1State 1) 1 = true) :=
  claim_set_active_clears hidden1State 1

/-- C1: for a vertical click pair `[a, b]`, the vertical measurement value is
`|b - a|`; when `a = b` the frequency is the infinite sentinel and no
division is performed, otherwise the frequency is `1 / |b - a|`; the
annotation is shown. `update_vertical_delta` is a total function, so the
computation raises no error. -/
theorem claim_vertical_measurement (s : AppState) (a b : ℚ)
    (h : s.cursor_clicks = [a, b]) :
    (update_vertical_delta s).delta_text_value = |b - a| ∧
    (update_vertical_delta s).delta_text_freq =
      (if a = b then Freq.infinite else Freq.finite (1 / |b - a|)) ∧
    (update_vertical_delta s).delta_text_visible = true := by
  have hlen : s.cursor_clicks.length = 2 := by rw [h]; rfl
  refine ⟨?_, ?_, ?_⟩
  · simp [update_vertical_delta, hlen, h]
  · by_cases hab : a = b
    · simp [update_vertical_delta, hlen, h, hab]
    · have hba : b - a ≠ 0 := sub_ne_zero.mpr fun hba => hab hba.symm
      simp [update_vertical_delta, hlen, h, hab, hba]
  · simp [update_vertical_delta, hlen, h]

/-- Witness: clicks at `1.0` and `1.25` give delta `0.25` and frequency `4`. -/
theorem claim_vertical_measurement_witness :
    (update_vertical_delta vclickState).delta_text_value = |(5/4 : ℚ) - 1| ∧
    (update_vertical_delta vclickState).delta_text_freq
      = (if (1 : ℚ) = 5/4 then Freq.infinite else Freq.finite (1 / |(5/4 : ℚ) - 1|)) ∧
    (update_vertical_delta vclickState).delta_text_visible = true :=
  claim_vertical_measurement vclickState 1 (5/4) rfl

theorem update_vertical_delta_of_len2 (s : AppState)
    (h : s.cursor_clicks.length = 2) :
    (update_vertical_delta s).delta_text_visible = true ∧
    (update_vertical_delta s).delta_text_value =
      |s.cursor_clicks.getD 1 0 - s.cursor_clicks.getD 0 0| ∧
    (update_vertical_delta s).delta_y_text_visible = false := by
  unfold update_vertical_delta
  rw [if_pos h]
  exact ⟨rfl, rfl, rfl⟩

theorem update_horizontal_delta_of_len2 (s : AppState)
    (h : s.h_cursor_clicks.length = 2) :
    (update_horizontal_delta s).delta_y_text_visible = true ∧
    (update_horizontal_delta s).delta_y_text_value =
      |s.h_cursor_clicks.getD 1 0 - s.h_cursor_clicks.getD 0 0| ∧
    (update_horizontal_delta s).delta_text_visible = false := by
  unfold update_horizontal_delta
  rw [if_pos h]
  exact ⟨rfl, rfl, rfl⟩

theorem clampTo_bounds (v lo hi : ℚ) (h : lo ≤ hi) :
    lo ≤ clampTo v lo hi ∧ clampTo v lo hi ≤ hi :=
  ⟨le_max_right _ _, max_le (min_le_right _ _) h⟩

/-- C5: a press on an axis that already holds two clicks and is not captured
as a drag clears both entries and hides that axis's measurement before
appending, leaving exactly the new click in the buffer. -/
theorem claim_third_click_resets (s : AppState) (x y : ℚ) (xlim ylim : ℚ × ℚ)
    (hvis : visAt s s.active_channel = true) :
    (s.cursor_clicks.length = 2 →
      ¬ (s.cursor1_visible = true ∧
          |x - s.cursor1_x| < (xlim.2 - xlim.1) * (2 / 100)) →
      ¬ (s.cursor2_visible = true ∧
          |x - s.cursor2_x| < (xlim.2 - xlim.1) * (2 / 100)) →
      (on_click s 1 x y true xlim ylim).cursor_clicks = [x] ∧
      (on_click s 1 x y true xlim ylim).delta_text_visible = false) ∧
    (s.h_cursor_clicks.length = 2 →
      ¬ (s.cursor_h1_visible = true ∧
          |y - s.cursor_h1_y| < (ylim.2 - ylim.1) * (2 / 100)) →
      ¬ (s.cursor_h2_visible = true ∧
          |y - s.cursor_h2_y| < (ylim.2 - ylim.1) * (2 / 100)) →
      (on_click s 3 x y true xlim ylim).h_cursor_clicks = [y] ∧
      (on_click s 3 x y true xlim ylim).delta_y_text_visible = false) := by
  constructor
  · intro hlen h1 h2
    constructor <;> simp [on_click, v_click, hvis, h1, h2, hlen]
  · intro hlen h1 h2
    constructor <;> simp [on_click, h_click, hvis, h1, h2, hlen]

/-- Witness: with the vertical pair `[1, 5]` placed (cursors visible at 1 and
5, axis range `[0, 10]`), a third left click at `x = 3` leaves exactly `[3]`
and hides the vertical measurement. -/
theorem claim_third_click_resets_witness :
    (on_click pairState 1 3 7 true (0, 10) (0, 10)).cursor_clicks = [3] ∧
    (on_click pairState 1 3 7 true (0, 10) (0, 10)).delta_text_visible = false :=
  (claim_third_click_resets pairState 3 7 (0, 10) (0, 10) rfl).1 rfl
    (by norm_num [pairState, init]) (by norm_num [pairState, init])

/-- C7: a pointer move during a drag (pointer in the chart, active channel
visible, the dragged entry present) keeps the click-buffer lengths, replaces
exactly the entry at the dragged cursor's index with the event coordinate
clamped into the visible axis range, and recomputes that axis's measurement
when the pair is complete. -/
theorem claim_drag_move (s : AppState) (x y : ℚ) (xlim ylim : ℚ × ℚ)
    (hvis : visAt s s.active_channel = true)
    (hx : xlim.1 ≤ xlim.2) (hy : ylim.1 ≤ ylim.2) :
    (s.dragging = some Drag.v1 → 1 ≤ s.cursor_clicks.length →
      ∃ s', on_drag s x y true xlim ylim = some s' ∧
        s'.cursor_clicks = s.cursor_clicks.set 0 (clampTo x xlim.1 xlim.2) ∧
        s'.cursor_clicks.length = s.cursor_clicks.length ∧
        s'.h_cursor_clicks = s.h_cursor_clicks ∧
        xlim.1 ≤ clampTo x xlim.1 xlim.2 ∧ clampTo x xlim.1 xlim.2 ≤ xlim.2 ∧
        (s.cursor_clicks.length = 2 → s'.delta_text_visible = true ∧
          s'.delta_text_value =
            |s'.cursor_clicks.getD 1 0 - s'.cursor_clicks.getD 0 0|)) ∧
    (s.dragging = some Drag.v2 → 2 ≤ s.cursor_clicks.length →
      ∃ s', on_drag s x y true xlim ylim = some s' ∧
        s'.cursor_clicks = s.cursor_clicks.set 1 (clampTo x xlim.1 xlim.2) ∧
        s'.cursor_clicks.length = s.cursor_clicks.length ∧
        s'.h_cursor_clicks = s.h_cursor_clicks ∧
        xlim.1 ≤ clampTo x xlim.1 xlim.2 ∧ clampTo x xlim.1 xlim.2 ≤ xlim.2 ∧
        (s.cursor_clicks.length = 2 → s'.delta_text_visible = true ∧
          s'.delta_text_value =
            |s'.cursor_clicks.getD 1 0 - s'.cursor_clicks.getD 0 0|)) ∧
    (s.dragging = some Drag.h1 → 1 ≤ s.h_cursor_clicks.length →
      ∃ s', on_drag s x y true xlim ylim = some s' ∧
        s'.h_cursor_clicks = s.h_cursor_clicks.set 0 (clampTo y ylim.1 ylim.2) ∧
        s'.h_cursor_clicks.length = s.h_cursor_clicks.length ∧
        s'.cursor_clicks = s.cursor_clicks ∧
        ylim.1 ≤ clampTo y ylim.1 ylim.2 ∧ clampTo y ylim.1 ylim.2 ≤ ylim.2 ∧
        (s.h_cursor_clicks.length = 2 → s'.delta_y_text_visible = true ∧
          s'.delta_y_text_value =
            |s'.h_cursor_clicks.getD 1 0 - s'.h_cursor_clicks.getD 0 0|)) ∧
    (s.dragging = some Drag.h2 → 2 ≤ s.h_cursor_clicks.length →
      ∃ s', on_drag s x y true xlim ylim = some s' ∧
        s'.h_cursor_clicks = s.h_cursor_clicks.set 1 (clampTo y ylim.1 ylim.2) ∧
        s'.h_cursor_clicks.length = s.h_cursor_clicks.length ∧
        s'.cursor_clicks = s.cursor_clicks ∧
        ylim.1 ≤ clampTo y ylim.1 ylim.2 ∧ clampTo y ylim.1 ylim.2 ≤ ylim.2 ∧
        (s.h_cursor_clicks.length = 2 → s'.delta_y_text_visible = true ∧
          s'.delta_y_text_value =
            |s'.h_cursor_clicks.getD 1 0 - s'.h_cursor_clicks.getD 0 0|)) := by
  refine ⟨fun hd hlen => ?_, fun hd hlen => ?_, fun hd hlen => ?_,
    fun hd hlen => ?_⟩
  · have hstep : on_drag s x y true xlim ylim = some (update_vertical_delta
        { s with cursor1_x := clampTo x xlim.1 xlim.2,
                 cursor_clicks := s.cursor_clicks.set 0 (clampTo x xlim.1 xlim.2) }) := by
      simp [on_drag, hd, hlen, hvis, clampTo]
    refine ⟨_, hstep, by simp, by simp, by simp,
      (clampTo_bounds x _ _ hx).1, (clampTo_bounds x _ _ hx).2, fun h2 => ?_⟩
    have hl2 : ({ s with cursor1_x := clampTo x xlim.1 xlim.2,
                         cursor_clicks := s.cursor_clicks.set 0
                           (clampTo x xlim.1 xlim.2) } :
        AppState).cursor_clicks.length = 2 := by simp [h2]
    obtain ⟨hvis', hval, _⟩ := update_vertical_delta_of_len2 _ hl2
    exact ⟨hvis', by simpa using hval⟩
  · have hstep : on_drag s x y true xlim ylim = some (update_vertical_delta
        { s with cursor2_x := clampTo x xlim.1 xlim.2,
                 cursor_clicks := s.cursor_clicks.set 1 (clampTo x xlim.1 xlim.2) }) := by
      simp [on_drag, hd, hlen, hvis, clampTo]
    refine ⟨_, hstep, by simp, by simp, by simp,
      (clampTo_bounds x _ _ hx).1, (clampTo_bounds x _ _ hx).2, fun h2 => ?_⟩
    have hl2 : ({ s with cursor2_x := clampTo x xlim.1 xlim.2,
                         cursor_clicks := s.cursor_clicks.set 1
                           (clampTo x xlim.1 xlim.2) } :
        AppState).cursor_clicks.length = 2 := by simp [h2]
    obtain ⟨hvis', hval, _⟩ := update_vertical_delta_of_len2 _ hl2
    exact ⟨hvis', by simpa using hval⟩
  · have hstep : on_drag s x y true xlim ylim = some (update_horizontal_delta
        { s with cursor_h1_y := clampTo y ylim.1 ylim.2,
                 h_cursor_clicks := s.h_cursor_clicks.set 0 (clampTo y ylim.1 ylim.2) }) := by
      simp [on_drag, hd, hlen, hvis, clampTo]
    refine ⟨_, hstep, by simp, by simp, by simp,
      (clampTo_bounds y _ _ hy).1, (clampTo_bounds y _ _ hy).2, fun h2 => ?_⟩
    have hl2 : ({ s with cursor_h1_y := clampTo y ylim.1 ylim.2,
                         h_cursor_clicks := s.h_cursor_clicks.set 0
                           (clampTo y ylim.1 ylim.2) } :
        AppState).h_cursor_clicks.length = 2 := by simp [h2]
    obtain ⟨hvis', hval, _⟩ := update_horizontal_delta_of_len2 _ hl2
    exact ⟨hvis', by simpa using hval⟩
  · have hstep : on_drag s x y true xlim ylim = some (update_horizontal_delta
        { s with cursor_h2_y := clampTo y ylim.1 ylim.2,
                 h_cursor_clicks := s.h_cursor_clicks.set 1 (clampTo y ylim.1 ylim.2) }) := by
      simp [on_drag, hd, hlen, hvis, clampTo]
    refine ⟨_, hstep, by simp, by simp, by simp,
      (clampTo_bounds y _ _ hy).1, (clampTo_bounds y _ _ hy).2, fun h2 => ?_⟩
    have hl2 : ({ s with cursor_h2_y := clampTo y ylim.1 ylim.2,
                         h_cursor_clicks := s.h_cursor_clicks.set 1
                           (clampTo y ylim.1 ylim.2) } :
        AppState).h_cursor_clicks.length = 2 := by simp [h2]
    obtain ⟨hvis', hval, _⟩ := update_horizontal_delta_of_len2 _ hl2
    exact ⟨hvis', by simpa using hval⟩

/-- Witness: dragging the first vertical cursor of the pair `[1, 5]` to
`x = 30` in range `[0, 10]` stores the clamped value `10`, keeping length 2
and recomputing the measurement. -/
theorem claim_drag_move_witness :
    ∃ s', on_drag { init with dragging := some Drag.v1, cursor_clicks := [1, 5] }
        30 0 true (0, 10) (0, 10) = some s' ∧
      s'.cursor_clicks = ([1, 5] : List ℚ).set 0 (clampTo 30 0 10) ∧
      s'.cursor_clicks.length = ([1, 5] : List ℚ).length ∧
      s'.h_cursor_clicks = ([] : List ℚ) ∧
      (0 : ℚ) ≤ clampTo 30 0 10 ∧ clampTo 30 0 10 ≤ (10 : ℚ) ∧
      (([1, 5] : List ℚ).length = 2 → s'.delta_text_visible = true ∧
        s'.delta_text_value =
          |s'.cursor_clicks.getD 1 0 - s'.cursor_clicks.getD 0 0|) :=
  (claim_drag_move { init with dragging := some Drag.v1, cursor_clicks := [1, 5] }
    30 0 (0, 10) (0, 10) rfl (by norm_num) (by norm_num)).1 rfl (by simp)

/-- C8: while the active channel is hidden, a pointer press and a pointer
move both leave the whole interaction state unchanged (`on_click` returns
early, `on_drag` returns early). -/
theorem claim_hidden_channel_inert (s : AppState) (button : Nat) (x y : ℚ)
    (inaxes : Bool) (xlim ylim : ℚ × ℚ)
    (h : visAt s s.active_channel = false) :
    on_click s button x y inaxes xlim ylim = s ∧
    on_drag s x y inaxes xlim ylim = some s := by
  constructor
  · unfold on_click
    cases inaxes <;> simp [h]
  · unfold on_drag
    rcases hd : s.dragging with _ | d
    · simp [hd]
    · cases inaxes <;> simp [h, hd]

/-- Witness: with channel 0 active and hidden, a left press and a move at
`(2, 3)` change nothing. -/
theorem claim_hidden_channel_inert_witness :
    on_click { init with visible0 := false } 1 2 3 true (0, 10) (0, 10)
      = { init with visible0 := false } ∧
    on_drag { init with visible0 := false } 2 3 true (0, 10) (0, 10)
      = some { init with visible0 := false } :=
  claim_hidden_channel_inert { init with visible0 := false } 1 2 3 true
    (0, 10) (0, 10) rfl

/-! Preservation of the reachable-state invariants. -/

theorem baseInv_clear_cursors (s : AppState) : baseInv (clear_cursors s) := by
  simp [baseInv, lenInv, glyphInv, exclInv, clear_cursors]

theorem baseInv_setVis (s : AppState) (i : Fin 3) (b : Bool) (h : baseInv s) :
    baseInv (setVis s i b) := by
  unfold setVis
  split_ifs <;> exact h

theorem baseInv_update_vertical_delta (s : AppState) (h : baseInv s) :
    baseInv (update_vertical_delta s) := by
  obtain ⟨hl, hg, he⟩ := h
  unfold update_vertical_delta
  split_ifs
  · exact ⟨hl, hg, by simp [exclInv]⟩
  · exact ⟨hl, hg, he⟩

theorem baseInv_update_horizontal_delta (s : AppState) (h : baseInv s) :
    baseInv (update_horizontal_delta s) := by
  obtain ⟨hl, hg, he⟩ := h
  unfold update_horizontal_delta
  split_ifs
  · exact ⟨hl, hg, by simp [exclInv]⟩
  · exact ⟨hl, hg, he⟩

theorem baseInv_on_release (s : AppState) (h : baseInv s) :
    baseInv (on_release s) := h

theorem baseInv_reset_artists (s : AppState) (h : baseInv s) :
    baseInv (reset_artists s) :=
  ⟨h.1, by simp [glyphInv], by simp [exclInv]⟩

theorem baseInv_restore_v1 (s : AppState) (h : baseInv s) :
    baseInv (restore_v1 s) := by
  obtain ⟨hl, ⟨g1, g2, g3, g4⟩, he⟩ := h
  unfold restore_v1
  split_ifs with hc
  · exact ⟨hl, ⟨fun _ => hc, g2, g3, g4⟩, he⟩
  · exact ⟨hl, ⟨g1, g2, g3, g4⟩, he⟩

theorem baseInv_restore_v2 (s : AppState) (h : baseInv s) :
    baseInv (restore_v2 s) := by
  obtain ⟨⟨hl1, hl2⟩, ⟨g1, g2, g3, g4⟩, he⟩ := h
  unfold restore_v2
  split_ifs with hc
  · apply baseInv_update_vertical_delta
    refine ⟨⟨hl1, hl2⟩, ⟨g1, fun _ => ?_, g3, g4⟩, he⟩
    show s.cursor_clicks.length = 2
    omega
  · exact ⟨⟨hl1, hl2⟩, ⟨g1, g2, g3, g4⟩, he⟩

theorem baseInv_restore_h1 (s : AppState) (h : baseInv s) :
    baseInv (restore_h1 s) := by
  obtain ⟨hl, ⟨g1, g2, g3, g4⟩, he⟩ := h
  unfold restore_h1
  split_ifs with hc
  · exact ⟨hl, ⟨g1, g2, fun _ => hc, g4⟩, he⟩
  · exact ⟨hl, ⟨g1, g2, g3, g4⟩, he⟩

theorem baseInv_restore_h2 (s : AppState) (h : baseInv s) :
    baseInv (restore_h2 s) := by
  obtain ⟨⟨hl1, hl2⟩, ⟨g1, g2, g3, g4⟩, he⟩ := h
  unfold restore_h2
  split_ifs with hc
  · apply baseInv_update_horizontal_delta
    refine ⟨⟨hl1, hl2⟩, ⟨g1, g2, g3, fun _ => ?_⟩, he⟩
    show s.h_cursor_clicks.length = 2
    omega
  · exact ⟨⟨hl1, hl2⟩, ⟨g1, g2, g3, g4⟩, he⟩

theorem baseInv_restore_cursors (s : AppState) (h : baseInv s) :
    baseInv (restore_cursors s) :=
  baseInv_restore_h2 _ (baseInv_restore_h1 _ (baseInv_restore_v2 _
    (baseInv_restore_v1 _ h)))

theorem baseInv_plot (s : AppState) (h : baseInv s) : baseInv (plot s) := by
  simp only [plot]
  split_ifs
  · exact baseInv_restore_cursors _ (baseInv_reset_artists _ h)
  · exact ⟨⟨by simp, by simp⟩, by simp [glyphInv], by simp [exclInv]⟩
  · exact baseInv_restore_cursors _
      (baseInv_reset_artists _ (baseInv_setVis _ _ _ h))
  · exact ⟨⟨by simp, by simp⟩, by simp [glyphInv], by simp [exclInv]⟩

theorem baseInv_update_plot (s : AppState) (h : baseInv s) :
    baseInv (update_plot s) := by
  simp only [update_plot]
  split_ifs
  · exact baseInv_plot s h
  · exact baseInv_plot _ (baseInv_clear_cursors s)

theorem baseInv_on_channel_visibility_change (s : AppState) (i : Fin 3)
    (b : Bool) (h : baseInv s) :
    baseInv (on_channel_visibility_change s i b) := by
  simp only [on_channel_visibility_change]
  split_ifs <;>
    first
      | exact baseInv_clear_cursors _
      | exact baseInv_update_plot _ (baseInv_clear_cursors _)
      | exact baseInv_update_plot _ (baseInv_setVis _ _ _ h)

theorem baseInv_set_active_channel (s : AppState) (i : Fin 3) (_h : baseInv s) :
    baseInv (set_active_channel s i) := by
  simp only [set_active_channel]
  split_ifs
  · exact baseInv_update_plot _ (baseInv_setVis _ _ _ (baseInv_clear_cursors _))
  · exact baseInv_clear_cursors _

theorem baseInv_v_click (s : AppState) (x : ℚ) (h : baseInv s) :
    baseInv (v_click s x) := by
  obtain ⟨⟨hl1, hl2⟩, ⟨g1, g2, g3, g4⟩, he⟩ := h
  rcases hcl : s.cursor_clicks with _ | ⟨a, _ | ⟨b, _ | ⟨c, rest⟩⟩⟩
  · refine ⟨⟨?_, ?_⟩, ⟨?_, ?_, ?_, ?_⟩, ?_⟩ <;>
      simp_all [v_click, lenInv, glyphInv, exclInv]
  · refine ⟨⟨?_, ?_⟩, ⟨?_, ?_, ?_, ?_⟩, ?_⟩ <;>
      simp_all [v_click, lenInv, glyphInv, exclInv, update_vertical_delta]
  · refine ⟨⟨?_, ?_⟩, ⟨?_, ?_, ?_, ?_⟩, ?_⟩ <;>
      simp_all [v_click, lenInv, glyphInv, exclInv]
  · exfalso
    rw [hcl] at hl1
    simp only [List.length_cons] at hl1
    omega

theorem baseInv_h_click (s : AppState) (y : ℚ) (h : baseInv s) :
    baseInv (h_click s y) := by
  obtain ⟨⟨hl1, hl2⟩, ⟨g1, g2, g3, g4⟩, he⟩ := h
  rcases hcl : s.h_cursor_clicks with _ | ⟨a, _ | ⟨b, _ | ⟨c, rest⟩⟩⟩
  · refine ⟨⟨?_, ?_⟩, ⟨?_, ?_, ?_, ?_⟩, ?_⟩ <;>
      simp_all [h_click, lenInv, glyphInv, exclInv]
  · refine ⟨⟨?_, ?_⟩, ⟨?_, ?_, ?_, ?_⟩, ?_⟩ <;>
      simp_all [h_click, lenInv, glyphInv, exclInv, update_horizontal_delta]
  · refine ⟨⟨?_, ?_⟩, ⟨?_, ?_, ?_, ?_⟩, ?_⟩ <;>
      simp_all [h_click, lenInv, glyphInv, exclInv]
  · exfalso
    rw [hcl] at hl2
    simp only [List.length_cons] at hl2
    omega

theorem baseInv_on_click (s : AppState) (button : Nat) (x y : ℚ)
    (inaxes : Bool) (xlim ylim : ℚ × ℚ) (h : baseInv s) :
    baseInv (on_click s button x y inaxes xlim ylim) := by
  unfold on_click
  split_ifs <;>
    first
      | exact h
      | exact baseInv_v_click s x h
      | exact baseInv_h_click s y h

theorem baseInv_on_drag (s s' : AppState) (x y : ℚ) (inaxes : Bool)
    (xlim ylim : ℚ × ℚ) (h : baseInv s)
    (hs : on_drag s x y inaxes xlim ylim = some s') : baseInv s' := by
  rcases hd : s.dragging with _ | d
  · simp [on_drag, hd] at hs
    exact hs ▸ h
  · cases inaxes
    · simp [on_drag, hd] at hs
      exact hs ▸ h
    · by_cases hvis : visAt s s.active_channel = true
      · obtain ⟨⟨hl1, hl2⟩, ⟨g1, g2, g3, g4⟩, he⟩ := h
        cases d
        · simp [on_drag, hd, hvis] at hs
          obtain ⟨hc, rfl⟩ := hs
          apply baseInv_update_vertical_delta
          exact ⟨⟨by simpa using hl1, hl2⟩,
            ⟨by simpa using g1, by simpa using g2, g3, g4⟩, he⟩
        · simp [on_drag, hd, hvis] at hs
          obtain ⟨hc, rfl⟩ := hs
          apply baseInv_update_vertical_delta
          exact ⟨⟨by simpa using hl1, hl2⟩,
            ⟨by simpa using g1, by simpa using g2, g3, g4⟩, he⟩
        · simp [on_drag, hd, hvis] at hs
          obtain ⟨hc, rfl⟩ := hs
          apply baseInv_update_horizontal_delta
          exact ⟨⟨hl1, by simpa using hl2⟩,
            ⟨g1, g2, by simpa using g3, by simpa using g4⟩, he⟩
        · simp [on_drag, hd, hvis] at hs
          obtain ⟨hc, rfl⟩ := hs
          apply baseInv_update_horizontal_delta
          exact ⟨⟨hl1, by simpa using hl2⟩,
            ⟨g1, g2, by simpa using g3, by simpa using g4⟩, he⟩
      · simp [on_drag, hd, hvis] at hs
        exact hs ▸ h

theorem baseInv_step (s s' : AppState) (e : Ev) (h : baseInv s)
    (hs : step s e = some s') : baseInv s' := by
  cases e <;> simp only [step, Option.some.injEq] at hs
  case press b x y inax xl yl => exact hs ▸ baseInv_on_click s b x y inax xl yl h
  case move x y inax xl yl => exact baseInv_on_drag s s' x y inax xl yl h hs
  case release => exact hs ▸ baseInv_on_release s h
  case visibilityChange i b =>
    exact hs ▸ baseInv_on_channel_visibility_change s i b h
  case activeChange i => exact hs ▸ baseInv_set_active_channel s i h
  case gainSelected => exact hs ▸ baseInv_update_plot s h

theorem baseInv_run (evs : List Ev) (s s' : AppState) (h : baseInv s)
    (hr : run s evs = some s') : baseInv s' := by
  induction evs generalizing s with
  | nil =>
      simp only [run, Option.some.injEq] at hr
      exact hr ▸ h
  | cons e es ih =>
      unfold run at hr
      cases hstep : step s e with
      | none => rw [hstep] at hr; cases hr
      | some t =>
          rw [hstep] at hr
          exact ih t (baseInv_step s t e h hstep) hr

theorem baseInv_init : baseInv init := by
  simp [baseInv, lenInv, glyphInv, exclInv, init]

/-- C2: after any sequence of pointer and control events that completes
without an exception, each click buffer holds at most 2 entries. -/
theorem claim_clicks_bounded (evs : List Ev) (s : AppState)
    (h : run init evs = some s) :
    s.cursor_clicks.length ≤ 2 ∧ s.h_cursor_clicks.length ≤ 2 :=
  (baseInv_run evs init s baseInv_init h).1

/-- Witness: the empty event sequence reaches the initial state, where both
buffers are within the bound. -/
theorem claim_clicks_bounded_witness :
    init.cursor_clicks.length ≤ 2 ∧ init.h_cursor_clicks.length ≤ 2 :=
  claim_clicks_bounded [] init rfl

/-- C9: completing or updating the vertical measurement shows it and hides
the horizontal one, and symmetrically; consequently in every reachable state
at most one of the two measurement annotations is visible. -/
theorem claim_measurement_exclusive :
    (∀ s : AppState, s.cursor_clicks.length = 2 →
      (update_vertical_delta s).delta_text_visible = true ∧
      (update_vertical_delta s).delta_y_text_visible = false) ∧
    (∀ s : AppState, s.h_cursor_clicks.length = 2 →
      (update_horizontal_delta s).delta_y_text_visible = true ∧
      (update_horizontal_delta s).delta_text_visible = false) ∧
    (∀ (evs : List Ev) (s : AppState), run init evs = some s →
      ¬ (s.delta_text_visible = true ∧ s.delta_y_text_visible = true)) := by
  refine ⟨fun s hs => ?_, fun s hs => ?_, fun evs s h => ?_⟩
  · have hv := update_vertical_delta_of_len2 s hs
    exact ⟨hv.1, hv.2.2⟩
  · have hv := update_horizontal_delta_of_len2 s hs
    exact ⟨hv.1, hv.2.2⟩
  · exact (baseInv_run evs init s baseInv_init h).2.2

/-- Witness: completing the vertical pair in a concrete state shows only the
vertical annotation, and in the initial state no annotation is visible. -/
theorem claim_measurement_exclusive_witness :
    ((update_vertical_delta vclickState).delta_text_visible = true ∧
      (update_vertical_delta vclickState).delta_y_text_visible = false) ∧
    ¬ (init.delta_text_visible = true ∧ init.delta_y_text_visible = true) :=
  ⟨claim_measurement_exclusive.1 vclickState rfl,
    claim_measurement_exclusive.2.2 [] init rfl⟩

/-! Drag-target soundness under single-pointer-admissible sequences. -/

@[simp] theorem v_click_dragging (s : AppState) (x : ℚ) :
    (v_click s x).dragging = s.dragging := by
  simp only [v_click]
  split_ifs <;> simp

@[simp] theorem h_click_dragging (s : AppState) (y : ℚ) :
    (h_click s y).dragging = s.dragging := by
  simp only [h_click]
  split_ifs <;> simp

@[simp] theorem on_channel_visibility_change_dragging (s : AppState)
    (i : Fin 3) (b : Bool) :
    (on_channel_visibility_change s i b).dragging = s.dragging := by
  simp only [on_channel_visibility_change]
  split_ifs <;> simp

@[simp] theorem set_active_channel_dragging (s : AppState) (i : Fin 3) :
    (set_active_channel s i).dragging = s.dragging := by
  simp only [set_active_channel]
  split_ifs <;> simp

theorem dragInv_of_none (s : AppState) (h : s.dragging = none) : dragInv s := by
  refine ⟨?_, ?_, ?_, ?_⟩ <;> simp [h]

theorem dragInv_transfer (s s' : AppState) (h : dragInv s)
    (hd : s'.dragging = s.dragging)
    (hv : s'.cursor_clicks.length = s.cursor_clicks.length)
    (hh : s'.h_cursor_clicks.length = s.h_cursor_clicks.length) :
    dragInv s' := by
  obtain ⟨d1, d2, d3, d4⟩ := h
  refine ⟨fun q => ?_, fun q => ?_, fun q => ?_, fun q => ?_⟩
  · rw [hd] at q; rw [hv]; exact d1 q
  · rw [hd] at q; rw [hv]; exact d2 q
  · rw [hd] at q; rw [hh]; exact d3 q
  · rw [hd] at q; rw [hh]; exact d4 q

theorem dragInv_on_click (s : AppState) (button : Nat) (x y : ℚ)
    (inaxes : Bool) (xlim ylim : ℚ × ℚ) (hg : glyphInv s)
    (hn : s.dragging = none) :
    dragInv (on_click s button x y inaxes xlim ylim) := by
  obtain ⟨g1, g2, g3, g4⟩ := hg
  unfold on_click
  split_ifs <;> (refine ⟨?_, ?_, ?_, ?_⟩ <;> simp_all [hn])

theorem on_drag_total (s : AppState) (x y : ℚ) (inaxes : Bool)
    (xlim ylim : ℚ × ℚ) (hd : dragInv s) :
    ∃ s', on_drag s x y inaxes xlim ylim = some s' ∧
      s'.dragging = s.dragging ∧
      s'.cursor_clicks.length = s.cursor_clicks.length ∧
      s'.h_cursor_clicks.length = s.h_cursor_clicks.length := by
  obtain ⟨d1, d2, d3, d4⟩ := hd
  rcases hdr : s.dragging with _ | d
  · refine ⟨s, ?_, hdr, rfl, rfl⟩
    simp [on_drag, hdr]
  · cases inaxes
    · refine ⟨s, ?_, hdr, rfl, rfl⟩
      simp [on_drag, hdr]
    · by_cases hvis : visAt s s.active_channel = true
      · cases d
        · refine ⟨update_vertical_delta
              { s with cursor1_x := clampTo x xlim.1 xlim.2,
                       cursor_clicks := s.cursor_clicks.set 0
                         (clampTo x xlim.1 xlim.2) }, ?_, ?_, ?_, ?_⟩ <;>
            simp [on_drag, hdr, hvis, d1 hdr]
        · refine ⟨update_vertical_delta
              { s with cursor2_x := clampTo x xlim.1 xlim.2,
                       cursor_clicks := s.cursor_clicks.set 1
                         (clampTo x xlim.1 xlim.2) }, ?_, ?_, ?_, ?_⟩ <;>
            simp [on_drag, hdr, hvis, d2 hdr]
        · refine ⟨update_horizontal_delta
              { s with cursor_h1_y := clampTo y ylim.1 ylim.2,
                       h_cursor_clicks := s.h_cursor_clicks.set 0
                         (clampTo y ylim.1 ylim.2) }, ?_, ?_, ?_, ?_⟩ <;>
            simp [on_drag, hdr, hvis, d3 hdr]
        · refine ⟨update_horizontal_delta
              { s with cursor_h2_y := clampTo y ylim.1 ylim.2,
                       h_cursor_clicks := s.h_cursor_clicks.set 1
                         (clampTo y ylim.1 ylim.2) }, ?_, ?_, ?_, ?_⟩ <;>
            simp [on_drag, hdr, hvis, d4 hdr]
      · refine ⟨s, ?_, hdr, rfl, rfl⟩
        simp [on_drag, hdr, hvis]

theorem inv3_step (s : AppState) (e : Ev) (hb : baseInv s) (hd : dragInv s)
    (hok : evAllowed s e = true) :
    ∃ s', step s e = some s' ∧ baseInv s' ∧ dragInv s' := by
  cases e with
  | press b x y inax xl yl =>
      have hn : s.dragging = none := by
        simpa [evAllowed, Option.isNone_iff_eq_none] using hok
      exact ⟨_, rfl, baseInv_on_click s b x y inax xl yl hb,
        dragInv_on_click s b x y inax xl yl hb.2.1 hn⟩
  | move x y inax xl yl =>
      obtain ⟨s', hs, hdrag, hv, hh⟩ := on_drag_total s x y inax xl yl hd
      exact ⟨s', hs, baseInv_on_drag s s' x y inax xl yl hb hs,
        dragInv_transfer s s' hd hdrag hv hh⟩
  | release =>
      exact ⟨_, rfl, baseInv_on_release s hb, dragInv_of_none _ rfl⟩
  | visibilityChange i b =>
      have hn : s.dragging = none := by
        simpa [evAllowed, Option.isNone_iff_eq_none] using hok
      exact ⟨_, rfl, baseInv_on_channel_visibility_change s i b hb,
        dragInv_of_none _ (by simp [hn])⟩
  | activeChange i =>
      have hn : s.dragging = none := by
        simpa [evAllowed, Option.isNone_iff_eq_none] using hok
      exact ⟨_, rfl, baseInv_set_active_channel s i hb,
        dragInv_of_none _ (by simp [hn])⟩
  | gainSelected =>
      have hn : s.dragging = none := by
        simpa [evAllowed, Option.isNone_iff_eq_none] using hok
      exact ⟨_, rfl, baseInv_update_plot s hb,
        dragInv_of_none _ (by simp [hn])⟩

theorem inv3_run (evs : List Ev) (s : AppState) (hb : baseInv s)
    (hd : dragInv s) (hok : okSeq s evs = true) :
    ∃ s', run s evs = some s' ∧ baseInv s' ∧ dragInv s' := by
  induction evs generalizing s with
  | nil => exact ⟨s, rfl, hb, hd⟩
  | cons e es ih =>
      unfold okSeq at hok
      rw [Bool.and_eq_true] at hok
      obtain ⟨hev, hrest⟩ := hok
      obtain ⟨t, hstep, hbt, hdt⟩ := inv3_step s e hb hd hev
      rw [hstep] at hrest
      obtain ⟨s', hrun, hb', hd'⟩ := ih t hbt hdt hrest
      refine ⟨s', ?_, hb', hd'⟩
      unfold run
      rw [hstep]
      exact hrun

theorem dragInv_init : dragInv init := dragInv_of_none init rfl

/-- C3 (amended): under event sequences admissible for a single pointing
device (`okSeq`: a press or a control-widget event only occurs while no drag
is in progress), every run completes without an exception and in every
reached state `dragging` references an existing click entry: at least one
vertical entry for `v1`, both for `v2`, and likewise on the horizontal axis.
The claim for unrestricted sequences is refuted by the counterexample. -/
theorem claim_drag_targets_exist (evs : List Ev)
    (h : okSeq init evs = true) :
    ∃ s, run init evs = some s ∧
      (s.dragging = some Drag.v1 → 1 ≤ s.cursor_clicks.length) ∧
      (s.dragging = some Drag.v2 → s.cursor_clicks.length = 2) ∧
      (s.dragging = some Drag.h1 → 1 ≤ s.h_cursor_clicks.length) ∧
      (s.dragging = some Drag.h2 → s.h_cursor_clicks.length = 2) := by
  obtain ⟨s, hrun, _, hdi⟩ := inv3_run evs init baseInv_init dragInv_init h
  exact ⟨s, hrun, hdi⟩

/-- Witness: the admissible sequence `evsOk` runs to completion; it ends
dragging the second vertical cursor with both entries present. -/
theorem claim_drag_targets_exist_witness :
    ∃ s, run init evsOk = some s ∧
      (s.dragging = some Drag.v1 → 1 ≤ s.cursor_clicks.length) ∧
      (s.dragging = some Drag.v2 → s.cursor_clicks.length = 2) ∧
      (s.dragging = some Drag.h1 → 1 ≤ s.h_cursor_clicks.length) ∧
      (s.dragging = some Drag.h2 → s.h_cursor_clicks.length = 2) :=
  claim_drag_targets_exist evsOk (by decide)

/-- C3 counterexample: after the pointer/control sequence `evsC3` (which
hides the active channel while its second vertical cursor is being dragged)
the state has `dragging = v2` with an empty vertical click buffer, refuting
the invariant for unrestricted sequences; continuing with `evsC3crash`
makes `on_drag` index the missing entry and the run aborts (`none`, the
`IndexError`). -/
theorem claim_drag_targets_counterexample :
    (run init evsC3).map dragObs = some (some Drag.v2, 0) ∧
    run init evsC3crash = none := by decide

theorem visAt_of_none_visible (s : AppState) (i : Fin 3)
    (h : any_visible s = false) : visAt s i = false := by
  fin_cases i <;> simp_all [any_visible, visAt]

theorem update_plot_visible0_of_none (s : AppState)
    (h : any_visible s = false) : (update_plot s).visible0 = true := by
  simp only [update_plot]
  rw [if_neg (by simp [visAt_of_none_visible s _ h])]
  exact plot_visible0_of_none _ (by simpa using h)

/-- C4 (amended): a visibility change is handled without error and never
leaves zero visible channels; when the request would leave zero visible
channels, the channel forced back to visible is channel 0 (the first
channel), not necessarily the channel being hidden. -/
theorem claim_last_visible_guard (s : AppState) (idx : Fin 3) (b : Bool) :
    any_visible (on_channel_visibility_change s idx b) = true ∧
    (any_visible (setVis s idx b) = false →
      (on_channel_visibility_change s idx b).visible0 = true) := by
  constructor
  · simp only [on_channel_visibility_change]
    split_ifs <;> simp_all
  · intro hnone
    simp only [on_channel_visibility_change]
    split_ifs <;>
      exact update_plot_visible0_of_none _ (by simpa using hnone)

/-- C4 counterexample: with only channel 1 visible (channels 0 and 2 hidden
by `evsC4`'s first two events), hiding channel 1 — the request that would
leave zero visible channels — ends with channel 1 hidden and channel 0
visible: the channel forced back to visible is not the channel being
hidden. -/
theorem claim_last_visible_counterexample :
    (run init evsC4).map visObs = some (true, false, false) := by decide

/-- Witness: hiding channel 1 while it is the only visible channel keeps a
channel visible, namely channel 0. -/
theorem claim_last_visible_guard_witness :
    any_visible (on_channel_visibility_change only1State 1 false) = true ∧
    (on_channel_visibility_change only1State 1 false).visible0 = true :=
  ⟨(claim_last_visible_guard only1State 1 false).1,
    (claim_last_visible_guard only1State 1 false).2 (by decide)⟩

end Oscilloscope
